import Mathlib

/-!
Shallow embedding of the LMA bus tracker core.

Sources embedded here:
* src/js/api.js      — transport retry chain (postRequest), the four upstream
  normalizers (getRoutes, getStops, getBuses, getStopArrivals), the ETA
  calculator (calculateETAs) and the haversine distance (getDistanceKm);
* src/unnamed/part_000 (the App module) — the arrival reconciliation policy
  (refreshArrivals) and the polling timer lifecycle (startArrivalsPolling,
  stopArrivalsPolling);
* src/js/ui.js       — the view transitions relevant to the timer lifecycle
  (showSelectionView and the back-button handler).

Modelling conventions:
* JavaScript values parsed from JSON are modelled by the inductive `JVal`;
  `undefined` (the result of accessing a missing property) is modelled as
  `Option.none` at access sites, and property access on `null` throws a
  TypeError, as in JavaScript.  Numbers are rationals (JSON numbers are
  finite decimals); NaN is modelled as `Option.none` where it can arise
  (parseFloat and parseInt results).
* A JavaScript exception (TypeError, rethrown network error, JSON.parse
  failure) is modelled with `Except Unit`; a function that cannot throw gets
  a plain return type.
* Network and clock effects are passed explicitly: fetch outcomes are
  parameters, and the wall clock `Date.now()` is a `now` parameter.
* Object literals hold their properties in JavaScript enumeration order with
  distinct keys; a for-in loop visits values in that order.
-/

namespace Tracker

/-- JavaScript/JSON value model. -/
inductive JVal where
  | null
  | bool (b : Bool)
  | num (q : ℚ)
  | str (s : String)
  | arr (elems : List JVal)
  | obj (props : List (String × JVal))

/-- JavaScript truthiness of a value (`if (x)`).  `0`, `""`, `false` and
`null` are falsy; arrays and objects are always truthy.  `undefined` is
handled as `Option.none` at the access site. -/
def jsTruthy : JVal → Bool
  | .null => false
  | .bool b => b
  | .num q => !(q == 0)
  | .str s => !(s == "")
  | .arr _ => true
  | .obj _ => true

/-- Property access `v[k]`.  On `null` JavaScript throws a TypeError
(modelled `Except.error`); on an object it yields the property value or
`undefined` (`none`); on any other primitive the value is boxed and the
access yields `undefined`. -/
def jsGet : JVal → String → Except Unit (Option JVal)
  | .null, _ => .error ()
  | .obj props, k => .ok ((props.find? (fun p => p.1 == k)).map Prod.snd)
  | _, _ => .ok none

/-- `a || b` where the default `b` is a definite value. -/
def jsOr (v : Option JVal) (d : JVal) : JVal :=
  match v with
  | some x => if jsTruthy x then x else d
  | none => d

/-- `a || b` where both operands may be `undefined`. -/
def jsOrOpt (v w : Option JVal) : Option JVal :=
  match v with
  | some x => if jsTruthy x then some x else w
  | none => w

/-- Values visited by a `for (const key in v)` loop over the own enumerable
properties of `v`: object property values, array elements, the characters of
a string, and nothing for primitives. -/
def jsForInValues : JVal → List JVal
  | .obj props => props.map Prod.snd
  | .arr elems => elems
  | .str s => s.data.map (fun c => JVal.str (String.mk [c]))
  | _ => []

/-- String coercion used by template literals.  Only `null`, booleans,
integral numbers and strings reach a template in this code base (ids are
integers or digit strings); the array/object branches and non-integral
numbers are approximated and never exercised by the claims. -/
def jsValToString : JVal → String
  | .null => "null"
  | .bool b => if b then "true" else "false"
  | .num q => if q.den == 1 then toString q.num else toString q
  | .str s => s
  | .arr _ => ""
  | .obj _ => ""

/-- Template interpolation of a possibly-`undefined` value. -/
def jsOptToString : Option JVal → String
  | some v => jsValToString v
  | none => "undefined"

/-- Longest leading run of decimal digits. -/
def takeDigits : List Char → List Char × List Char
  | [] => ([], [])
  | c :: cs =>
    if c.isDigit then
      let p := takeDigits cs
      (c :: p.1, p.2)
    else ([], c :: cs)

/-- Numeric value of a digit run. -/
def digitsToNat (ds : List Char) : ℕ :=
  ds.foldl (fun acc c => 10 * acc + (c.toNat - 48)) 0

/-- Decimal literal `digits [. digits]`; `none` models NaN (no digit
consumed).  Exponent forms do not occur in the upstream payloads. -/
def parseDecimal (cs : List Char) : Option ℚ :=
  let ip := takeDigits cs
  match ip.2 with
  | '.' :: rest2 =>
      let fp := takeDigits rest2
      if ip.1.isEmpty && fp.1.isEmpty then none
      else some ((digitsToNat ip.1 : ℚ) + (digitsToNat fp.1 : ℚ) / ((10 : ℚ) ^ fp.1.length))
  | _ => if ip.1.isEmpty then none else some (digitsToNat ip.1 : ℚ)

/-- `parseFloat` on a string: skip leading whitespace, optional sign, then
the longest leading decimal run; `none` models NaN. -/
def jsParseFloatString (s : String) : Option ℚ :=
  let cs := s.data.dropWhile (fun c => c == ' ' || c == '\t' || c == '\n' || c == '\r')
  match cs with
  | '-' :: rest => (parseDecimal rest).map (fun q => -q)
  | '+' :: rest => parseDecimal rest
  | _ => parseDecimal cs

/-- `parseFloat(v)`: numbers pass through, strings are parsed, everything
else (including `undefined`, `null`, booleans) is NaN, modelled `none`.
Array/object stringification is not modelled; no claim exercises it. -/
def jsParseFloat : Option JVal → Option ℚ
  | some (.num q) => some q
  | some (.str s) => jsParseFloatString s
  | _ => none

/-- `parseInt` on a string: sign plus longest leading digit run, base 10. -/
def jsParseIntString (s : String) : Option ℤ :=
  let cs := s.data.dropWhile (fun c => c == ' ' || c == '\t' || c == '\n' || c == '\r')
  let core : List Char → Option ℤ := fun l =>
    let p := takeDigits l
    if p.1.isEmpty then none else some (digitsToNat p.1 : ℤ)
  match cs with
  | '-' :: rest => (core rest).map (fun n => -n)
  | '+' :: rest => core rest
  | _ => core cs

/-- Truncation toward zero, matching `parseInt` applied to the decimal
string of a number. -/
def ratTruncate (q : ℚ) : ℤ :=
  if 0 ≤ q then ⌊q⌋ else -⌊-q⌋

/-- `parseInt(v)`: stringify then parse a leading integer; `none` is NaN. -/
def jsParseIntVal : Option JVal → Option ℤ
  | some (.num q) => some (ratTruncate q)
  | some (.str s) => jsParseIntString s
  | _ => none

/-- `x || 0` applied to a parseFloat result (NaN collapses to 0). -/
def jsNumOrZero (v : Option ℚ) : ℚ :=
  match v with
  | some q => q
  | none => 0

/-! ## Domain normalizer (api.js 93–268)

The structures whose names start with N are the canonical entities produced
by the normalizers; loosely-typed fields keep their JavaScript value type. -/

/-- Canonical route entity (api.js 108–116). -/
structure NRoute where
  id : Option JVal
  name : JVal
  shortName : Option JVal
  color : JVal
  points : List (ℚ × ℚ)
  groupId : Option JVal
  active : Bool

/-- Strict pairs of the comma-separated parts (api.js 128–134): the loop
reads parts at indices i and i+1 while `i < parts.length - 1`, keeping a
pair only when both components parse. -/
def pointsFromParts : List String → List (ℚ × ℚ)
  | a :: b :: rest =>
    let tail := pointsFromParts rest
    match jsParseFloatString a, jsParseFloatString b with
    | some lat, some lng => (lat, lng) :: tail
    | _, _ => tail
  | _ => []

/-- parseRoutePoints (api.js 122–137).  A falsy `points` yields `[]`; a
truthy non-string has no `.split` method, so the call throws (TypeError). -/
def parseRoutePoints (v : Option JVal) : Except Unit (List (ℚ × ℚ)) :=
  match v with
  | none => .ok []
  | some w =>
    if jsTruthy w = false then .ok []
    else match w with
      | .str s => .ok (pointsFromParts (s.splitOn ","))
      | _ => .error ()

/-- Route record normalization (api.js 108–116).  Accessing any field of a
null record throws (TypeError), which propagates: getRoutes has no
try/catch. -/
def normalizeRoute (route : JVal) : Except Unit NRoute := do
  let myid ← jsGet route "myid"
  let rid ← jsGet route "id"
  let nameV ← jsGet route "name"
  let longNameV ← jsGet route "longName"
  let shortV ← jsGet route "shortName"
  let colorV ← jsGet route "color"
  let pointsV ← jsGet route "points"
  let groupIdV ← jsGet route "groupId"
  let pts ← parseRoutePoints pointsV
  .ok
    { id := jsOrOpt myid rid
      name := jsOr nameV (jsOr longNameV (.str ("Route " ++ jsOptToString rid)))
      shortName := jsOrOpt shortV nameV
      color := jsOr colorV (.str "#4a90d9")
      points := pts
      groupId := groupIdV
      active := true }

/-- getRoutes (api.js 93–117), as a function of the parsed response body
(`none` is the `null` that postRequest returns for an empty body).
`data.all || []` followed by `.map` throws a TypeError when `all` is truthy
but not an array; the body is only accessed when truthy, hence non-null. -/
def getRoutes (data : Option JVal) : Except Unit (List NRoute) :=
  match data with
  | none => .ok []
  | some d =>
    if jsTruthy d = false then .ok []
    else do
      let allOpt ← jsGet d "all"
      match jsOr allOpt (.arr []) with
      | .arr xs => xs.mapM normalizeRoute
      | _ => .error ()

/-- Canonical stop entity (api.js 160–168). -/
structure NStop where
  id : Option JVal
  name : JVal
  latitude : Option ℚ
  longitude : Option ℚ
  routeId : Option JVal
  routeName : Option JVal
  color : JVal

/-- Stop record normalization (api.js 160–168).  `stop.id` on a null record
throws (TypeError), which propagates: getStops has no try/catch. -/
def normalizeStop (stop : JVal) : Except Unit NStop := do
  let sid ← jsGet stop "id"
  let stopIdV ← jsGet stop "stopId"
  let nameV ← jsGet stop "name"
  let latV ← jsGet stop "latitude"
  let lngV ← jsGet stop "longitude"
  let routeIdV ← jsGet stop "routeId"
  let routeNameV ← jsGet stop "routeName"
  let colorV ← jsGet stop "color"
  .ok
    { id := jsOrOpt sid stopIdV
      name := jsOr nameV (.str ("Stop " ++ jsOptToString sid))
      latitude := jsParseFloat latV
      longitude := jsParseFloat lngV
      routeId := routeIdV
      routeName := routeNameV
      color := jsOr colorV (.str "#666666") }

/-- getStops (api.js 142–174): the stops container is iterated with a for-in
loop, so any non-array container shape is tolerated, but a null record
inside it makes normalization throw. -/
def getStops (data : Option JVal) : Except Unit (List NStop) :=
  match data with
  | none => .ok []
  | some d =>
    if jsTruthy d = false then .ok []
    else do
      let sOpt ← jsGet d "stops"
      match sOpt with
      | none => .ok []
      | some stopsObj =>
        if jsTruthy stopsObj = false then .ok []
        else (jsForInValues stopsObj).mapM normalizeStop

/-- Canonical bus entity (api.js 208–218). -/
structure NBus where
  id : Option JVal
  busName : JVal
  routeId : Option JVal
  latitude : Option ℚ
  longitude : Option ℚ
  heading : ℚ
  speed : ℚ
  paxLoad : JVal
  timestamp : JVal

/-- Bus record normalization (api.js 208–218); `now` is `Date.now()`.
`bus.busId` on a null record throws (TypeError), which propagates: getBuses
has no try/catch. -/
def normalizeBus (now : ℚ) (bus : JVal) : Except Unit NBus := do
  let busIdV ← jsGet bus "busId"
  let idV ← jsGet bus "id"
  let busNameV ← jsGet bus "busName"
  let nameV ← jsGet bus "name"
  let routeIdV ← jsGet bus "routeId"
  let routeV ← jsGet bus "route"
  let latV ← jsGet bus "latitude"
  let lngV ← jsGet bus "longitude"
  let headingV ← jsGet bus "heading"
  let speedV ← jsGet bus "speed"
  let paxLoadV ← jsGet bus "paxLoad"
  let updatedV ← jsGet bus "updated"
  let timestampV ← jsGet bus "timestamp"
  .ok
    { id := jsOrOpt busIdV idV
      busName := jsOr busNameV
        (jsOr nameV (.str ("Bus " ++ jsOptToString (jsOrOpt busIdV idV))))
      routeId := jsOrOpt routeIdV routeV
      latitude := jsParseFloat latV
      longitude := jsParseFloat lngV
      heading := jsNumOrZero (jsParseFloat headingV)
      speed := jsNumOrZero (jsParseFloat speedV)
      paxLoad := jsOr paxLoadV (.num 0)
      timestamp := jsOr updatedV (jsOr timestampV (.num now)) }

/-- One step of the container-flattening loop shared by getBuses
(api.js 196–205) and getStopArrivals (api.js 242–251): array values are
spread, single records are pushed. -/
def flattenStep (acc : List JVal) (item : JVal) : List JVal :=
  match item with
  | .arr l => acc ++ l
  | w => acc ++ [w]

/-- for-in flattening of a keyed-map container. -/
def flattenForIn (v : JVal) : List JVal :=
  (jsForInValues v).foldl flattenStep []

/-- getBuses (api.js 179–219): the buses container may be a flat array, a
keyed-map of records, or a keyed-map of arrays; a null record inside it
makes normalization throw. -/
def getBuses (data : Option JVal) (now : ℚ) : Except Unit (List NBus) :=
  match data with
  | none => .ok []
  | some d =>
    if jsTruthy d = false then .ok []
    else do
      let bOpt ← jsGet d "buses"
      match bOpt with
      | none => .ok []
      | some b =>
        if jsTruthy b = false then .ok []
        else
          let busesArray :=
            match b with
            | .arr xs => xs
            | _ => flattenForIn b
          busesArray.mapM (normalizeBus now)

/-- Canonical arrival entity produced by getStopArrivals (api.js 255–263). -/
structure NArrival where
  busId : Option JVal
  busName : JVal
  routeId : Option JVal
  routeName : Option JVal
  eta : ℤ
  scheduledTime : Option JVal
  timestamp : ℚ

/-- Arrival record normalization (api.js 255–263).  A null record throws at
`arrival.busId`; the throw is caught by the enclosing try/catch of
getStopArrivals. -/
def normalizeArrival (now : ℚ) (arrival : JVal) : Except Unit NArrival := do
  let busIdV ← jsGet arrival "busId"
  let busV ← jsGet arrival "bus"
  let busNameV ← jsGet arrival "busName"
  let routeIdV ← jsGet arrival "routeId"
  let routeV ← jsGet arrival "route"
  let routeNameV ← jsGet arrival "routeName"
  let etaV ← jsGet arrival "eta"
  let minutesV ← jsGet arrival "minutes"
  let schedTimeV ← jsGet arrival "scheduledTime"
  let schedV ← jsGet arrival "scheduled"
  .ok
    { busId := jsOrOpt busIdV busV
      busName := jsOr busNameV (.str ("Bus " ++ jsOptToString busIdV))
      routeId := jsOrOpt routeIdV routeV
      routeName := routeNameV
      eta :=
        match jsParseIntVal (jsOrOpt etaV minutesV) with
        | some n => n
        | none => 0
      scheduledTime := jsOrOpt schedTimeV schedV
      timestamp := now }

/-- The arrivals container handling of getStopArrivals (api.js 236–253);
the body is only accessed when truthy, hence non-null. -/
def arrivalsContainer (data : JVal) : Except Unit (List JVal) := do
  let aOpt ← jsGet data "arrivals"
  match aOpt with
  | none => .ok []
  | some v =>
    if jsTruthy v = false then .ok []
    else
      match v with
      | .arr xs => .ok xs
      | _ => .ok (flattenForIn v)

/-- The normalized arrival list produced from a parsed response body; a
null record in the container makes it throw. -/
def arrivalsList (data : JVal) (now : ℚ) : Except Unit (List NArrival) := do
  let raw ← arrivalsContainer data
  raw.mapM (normalizeArrival now)

/-- postRequest (api.js 20–88) as a function of the per-proxy transport
outcomes, in proxy order starting at the current index: an outcome is either
a thrown error (non-ok status, network failure, JSON.parse failure) or a
parsed body (`none` for an empty body).  A throw advances to the next proxy;
the last proxy rethrows. -/
def postRequest : List (Except Unit (Option JVal)) → Except Unit (Option JVal)
  | [] => .error ()
  | o :: rest =>
    match rest with
    | [] => o
    | r :: rs =>
      match o with
      | .ok v => .ok v
      | .error _ => postRequest (r :: rs)

/-- The body of the try block of getStopArrivals (api.js 225–263): the
fetch may throw, and so may the arrival-record normalization (a null
record); both throws land in the catch block. -/
def getStopArrivalsBody (fetched : Except Unit (Option JVal)) (now : ℚ) :
    Except Unit (List NArrival) := do
  let data ← fetched
  match data with
  | none => .ok []
  | some d => arrivalsList d now

/-- getStopArrivals (api.js 224–268): the catch block turns every failure
into an empty list, so the caller always receives a list. -/
def getStopArrivals (fetched : Except Unit (Option JVal)) (now : ℚ) : List NArrival :=
  match getStopArrivalsBody fetched now with
  | .ok l => l
  | .error _ => []

/-! ## Domain model of a well-formed snapshot

The ETA engine and the reconciliation policy operate on the in-memory
snapshot of already-normalized entities.  The claims about them quantify
over well-formed snapshots: coordinates and speeds are real numbers (the
spec leaves NaN propagation explicitly out of scope, section 9), and an
entity id is either a string or an integral number — the two shapes the
upstream emits interchangeably. -/

/-- An upstream entity id: a string or a number. -/
inductive JsId where
  | str (s : String)
  | num (n : ℤ)
  deriving DecidableEq

/-- `String(id)`: the string normalization applied at join sites. -/
def JsId.toStringJs : JsId → String
  | .str s => s
  | .num n => toString n

/-- Route in the domain snapshot (the fields calculateETAs and
refreshArrivals read). -/
structure Route where
  id : JsId
  name : String
  shortName : Option String
  color : String

/-- Stop in the domain snapshot. -/
structure Stop where
  id : JsId
  name : String
  latitude : ℝ
  longitude : ℝ

/-- Bus in the domain snapshot (the fields calculateETAs reads). -/
structure Bus where
  id : JsId
  busName : String
  routeId : JsId
  latitude : ℝ
  longitude : ℝ
  speed : ℝ

/-- Computed arrival (api.js 302–312). -/
structure Arrival where
  busId : JsId
  busName : String
  routeId : JsId
  routeName : String
  routeColor : String
  eta : ℤ
  distance : ℝ
  speed : ℝ
  timestamp : ℤ

/-- Math.atan2. -/
noncomputable def jsAtan2 (y x : ℝ) : ℝ :=
  if 0 < x then Real.arctan (y / x)
  else if x < 0 then
    if 0 ≤ y then Real.arctan (y / x) + Real.pi else Real.arctan (y / x) - Real.pi
  else
    if 0 < y then Real.pi / 2 else if y < 0 then -(Real.pi / 2) else 0

/-- getDistanceKm (api.js 321–330): haversine distance, Earth radius 6371. -/
noncomputable def getDistanceKm (lat1 lon1 lat2 lon2 : ℝ) : ℝ :=
  let dLat := (lat2 - lat1) * Real.pi / 180
  let dLon := (lon2 - lon1) * Real.pi / 180
  let a := Real.sin (dLat / 2) * Real.sin (dLat / 2) +
      Real.cos (lat1 * Real.pi / 180) * Real.cos (lat2 * Real.pi / 180) *
      Real.sin (dLon / 2) * Real.sin (dLon / 2)
  let c := 2 * jsAtan2 (Real.sqrt a) (Real.sqrt (1 - a))
  6371 * c

/-- Math.round for the non-NaN inputs that occur here: floor of x + 1/2. -/
noncomputable def jsRound (x : ℝ) : ℤ := ⌊x + 1 / 2⌋

/-- `shortName || name` on domain strings (empty string is falsy). -/
def jsStrOr (v : Option String) (d : String) : String :=
  match v with
  | some s => if s = "" then d else s
  | none => d

/-- The route Map of calculateETAs (api.js 278–279): `routeMap.set(r.id, r)`
over the list, then `routeMap.get(k)`.  A JS Map compares keys with
SameValueZero (no string coercion), and a later `set` with the same key
overwrites an earlier one, so `get` returns the last route with that exact
id. -/
def routeMapGet (routes : List Route) (k : JsId) : Option Route :=
  routes.reverse.find? (fun r => r.id == k)

/-- The bus filter stage of calculateETAs (api.js 282–287): applied only
when a filter array is present and non-empty, and matching
`String(bus.routeId)` against the filter entries. -/
def filterBuses (buses : List Bus) : Option (List String) → List Bus
  | some ids =>
    if 0 < ids.length then buses.filter (fun bus => ids.contains bus.routeId.toStringJs)
    else buses
  | none => buses

/-- The per-bus arrival construction of calculateETAs (api.js 290–313);
`now` is `Date.now()`. -/
noncomputable def busToArrival (stop : Stop) (routes : List Route) (now : ℤ) (bus : Bus) :
    Arrival :=
  let distance := getDistanceKm bus.latitude bus.longitude stop.latitude stop.longitude
  let avgSpeed := if 0 < bus.speed then max (bus.speed * 1.6) 15 else 20
  let etaMinutes := jsRound (distance / avgSpeed * 60)
  let route := routeMapGet routes bus.routeId
  { busId := bus.id
    busName := bus.busName
    routeId := bus.routeId
    routeName :=
      match route with
      | some r => jsStrOr r.shortName r.name
      | none => "Route " ++ bus.routeId.toStringJs
    routeColor :=
      match route with
      | some r => r.color
      | none => "#4a90d9"
    eta := etaMinutes
    distance := distance
    speed := bus.speed
    timestamp := now }

/-- The sort comparator `(a, b) => a.eta - b.eta` (api.js 314): ascending
eta. -/
def etaLe (a b : Arrival) : Bool := decide (a.eta ≤ b.eta)

/-- calculateETAs (api.js 277–316): filter by selected routes, map each bus
to a distance-based arrival estimate, sort ascending by eta, keep the first
ten.  The array sort is stable with a consistent comparator, modelled by
mergeSort. -/
noncomputable def calculateETAs (buses : List Bus) (stop : Stop) (routes : List Route)
    (filterRouteIds : Option (List String)) (now : ℤ) : List Arrival :=
  ((((filterBuses buses filterRouteIds).map
    (busToArrival stop routes now)).mergeSort etaLe).take 10)

/-- The spec formula for the effective speed (section 4.3 step 3). -/
noncomputable def effectiveSpeed (speed : ℝ) : ℝ :=
  if 0 < speed then max (speed * 1.6) 15 else 20

/-! ## Arrival reconciliation policy (part_000, refreshArrivals 268–307) -/

/-- Upstream arrival prediction as consumed by refreshArrivals. -/
structure ApiArrival where
  busId : JsId
  busName : String
  routeId : JsId
  routeName : Option String
  eta : ℤ

/-- Upstream arrival after route-metadata enrichment (part_000 287–294). -/
structure EnrichedArrival where
  busId : JsId
  busName : String
  routeId : JsId
  routeName : String
  routeColor : String
  eta : ℤ

/-- The displayed arrival list: computed fallback or enriched upstream. -/
inductive ShownArrivals where
  | computed (l : List Arrival)
  | upstream (l : List EnrichedArrival)

/-- The arrival-to-route join of refreshArrivals (part_000 288):
`routes.find(r => String(r.id) === String(arrival.routeId))`. -/
def findRouteByStringId (routes : List Route) (k : JsId) : Option Route :=
  routes.find? (fun r => r.id.toStringJs == k.toStringJs)

/-- refreshArrivals (part_000 268–307) as a function of the in-memory
snapshot, the stored route filter, and the outcome of the upstream arrivals
fetch (`Except.error` models a thrown fetch, caught by the catch block at
300–306; both the catch block and the try block read the same stored
filter).  The result is the list handed to the UI. -/
noncomputable def refreshArrivals (buses : List Bus) (routes : List Route) (stop : Stop)
    (selectedRoutes : List String) (fetched : Except Unit (List ApiArrival)) (now : ℤ) :
    ShownArrivals :=
  match fetched with
  | .error _ =>
    ShownArrivals.computed (calculateETAs buses stop routes (some selectedRoutes) now)
  | .ok arrivals =>
    if arrivals.length = 0 then
      ShownArrivals.computed (calculateETAs buses stop routes (some selectedRoutes) now)
    else
      ShownArrivals.upstream
        ((arrivals.filter (fun arrival =>
            if selectedRoutes.length = 0 then true
            else selectedRoutes.contains arrival.routeId.toStringJs)).map
          (fun arrival =>
            let route := findRouteByStringId routes arrival.routeId
            { busId := arrival.busId
              busName := arrival.busName
              routeId := arrival.routeId
              routeName := jsStrOr arrival.routeName
                (match route with
                 | some r => jsStrOr r.shortName r.name
                 | none => "Route " ++ arrival.routeId.toStringJs)
              routeColor :=
                match route with
                | some r => r.color
                | none => "#4a90d9"
              eta := arrival.eta }))

/-! ## Polling coordinator and view transitions

State machine for the timer lifecycle (part_000 312–339) and the view
transitions that drive it (ui.js 81–88 back-button handler, ui.js 337–362
showSelectionView, ui.js 306–332 goBackToDetailsView). -/

/-- The three UI views. -/
inductive View where
  | selection
  | details
  | busNav
  deriving DecidableEq

/-- Application state relevant to the polling lifecycle: the current view
and whether each refresh interval is set. -/
structure AppState where
  view : View
  busTimerRunning : Bool
  arrivalsTimerRunning : Bool
  deriving DecidableEq

/-- startArrivalsPolling (part_000 322–329): clears any previous arrivals
interval and sets a new one. -/
def startArrivalsPolling (s : AppState) : AppState :=
  { s with arrivalsTimerRunning := true }

/-- stopArrivalsPolling (part_000 334–339): clears the arrivals interval.
This function is defined in the App module but no code path invokes it, and
it is absent from the module public API (part_000 349–354). -/
def stopArrivalsPolling (s : AppState) : AppState :=
  { s with arrivalsTimerRunning := false }

/-- showSelectionView (ui.js 337–362): switches the view and resets map
highlights and dropdowns; it performs no timer operation. -/
def showSelectionView (s : AppState) : AppState :=
  { s with view := View.selection }

/-- The back-button handler (ui.js 81–88): from the bus-navigation view go
back to details (goBackToDetailsView), otherwise show the selection view. -/
def backButtonClick (s : AppState) : AppState :=
  match s.view with
  | View.busNav => { s with view := View.details }
  | _ => showSelectionView s

/-! ## Concrete snapshots used to evaluate the theorems -/

/-- A stop at the origin. -/
def stopW : Stop :=
  { id := JsId.num 1, name := "Origin", latitude := 0, longitude := 0 }

/-- A stationary bus at the origin on route 7. -/
def busW : Bus :=
  { id := JsId.num 50, busName := "Bus 50", routeId := JsId.num 7,
    latitude := 0, longitude := 0, speed := 0 }

/-- A stationary bus at the origin on route 5. -/
def busF : Bus :=
  { id := JsId.num 51, busName := "Bus 51", routeId := JsId.num 5,
    latitude := 0, longitude := 0, speed := 0 }

/-- A route whose id is the string form of 5. -/
def routeC5 : Route :=
  { id := JsId.str "5", name := "Crosstown", shortName := some "CT", color := "#ff0000" }

/-- A bus whose routeId is the number 5. -/
def busC5 : Bus :=
  { id := JsId.num 52, busName := "Bus 52", routeId := JsId.num 5,
    latitude := 0, longitude := 0, speed := 0 }

/-- Eleven stationary buses with distinct ids, all at the origin. -/
def buses11 : List Bus :=
  (List.range 11).map (fun i =>
    { id := JsId.num i, busName := "Bus", routeId := JsId.num 100,
      latitude := 0, longitude := 0, speed := 0 })

/-! ## Shared lemmas -/

/-- The filter stage only removes buses. -/
theorem filterBuses_subset (buses : List Bus) (f : Option (List String)) :
    filterBuses buses f ⊆ buses := by
  intro a ha
  cases f with
  | none => exact ha
  | some ids =>
    simp only [filterBuses] at ha
    by_cases h : 0 < ids.length
    · rw [if_pos h] at ha
      exact (List.mem_filter.mp ha).1
    · rwa [if_neg h] at ha

/-- Every output arrival of calculateETAs comes from a bus that passed the
filter stage. -/
theorem mem_calculateETAs {a : Arrival} {buses : List Bus} {stop : Stop}
    {routes : List Route} {f : Option (List String)} {now : ℤ}
    (ha : a ∈ calculateETAs buses stop routes f now) :
    ∃ bus ∈ filterBuses buses f, a = busToArrival stop routes now bus := by
  unfold calculateETAs at ha
  have h1 := (List.take_sublist 10
    (((filterBuses buses f).map (busToArrival stop routes now)).mergeSort etaLe)).subset ha
  have h2 := List.mem_mergeSort.mp h1
  rcases List.mem_map.mp h2 with ⟨bus, hbus, hEq⟩
  exact ⟨bus, hbus, hEq.symm⟩

/-! ## Claim theorems -/

/-- C1: whenever the upstream arrivals fetch throws or returns an empty
sequence, refreshArrivals hands the UI exactly the computed fallback
`calculateETAs(buses, stop, routes, filter)`; the fallback itself is a total
function, so nothing is thrown onward. -/
theorem refreshArrivals_fallback_eq (buses : List Bus) (routes : List Route) (stop : Stop)
    (selectedRoutes : List String) (fetched : Except Unit (List ApiArrival)) (now : ℤ)
    (h : fetched = Except.error () ∨ fetched = Except.ok []) :
    refreshArrivals buses routes stop selectedRoutes fetched now =
      ShownArrivals.computed (calculateETAs buses stop routes (some selectedRoutes) now) := by
  rcases h with h | h <;> subst h <;> rfl

/-- Witness for C1 at a concrete snapshot with an empty upstream result. -/
theorem refreshArrivals_fallback_eq_witness :
    refreshArrivals [] [] stopW [] (Except.ok []) 0 =
      ShownArrivals.computed (calculateETAs [] stopW [] (some []) 0) :=
  refreshArrivals_fallback_eq [] [] stopW [] (Except.ok []) 0 (Or.inr rfl)

/-- C8: the haversine distance of a point to itself is zero, and the
distance is symmetric in its two coordinate pairs. -/
theorem getDistanceKm_self_and_symm (lat1 lon1 lat2 lon2 : ℝ) :
    getDistanceKm lat1 lon1 lat1 lon1 = 0 ∧
    getDistanceKm lat1 lon1 lat2 lon2 = getDistanceKm lat2 lon2 lat1 lon1 := by
  constructor
  · simp only [getDistanceKm, jsAtan2]
    norm_num [Real.sin_zero, Real.sqrt_zero, Real.sqrt_one, Real.arctan_zero]
  · simp only [getDistanceKm]
    have hs : ∀ x y : ℝ,
        Real.sin ((x - y) * Real.pi / 180 / 2) * Real.sin ((x - y) * Real.pi / 180 / 2) =
        Real.sin ((y - x) * Real.pi / 180 / 2) * Real.sin ((y - x) * Real.pi / 180 / 2) := by
      intro x y
      have h : (x - y) * Real.pi / 180 / 2 = -((y - x) * Real.pi / 180 / 2) := by ring
      rw [h, Real.sin_neg]
      ring
    have hcs : ∀ u v x y : ℝ,
        Real.cos u * Real.cos v * Real.sin ((x - y) * Real.pi / 180 / 2) *
            Real.sin ((x - y) * Real.pi / 180 / 2) =
        Real.cos v * Real.cos u * Real.sin ((y - x) * Real.pi / 180 / 2) *
            Real.sin ((y - x) * Real.pi / 180 / 2) := by
      intro u v x y
      have h : (x - y) * Real.pi / 180 / 2 = -((y - x) * Real.pi / 180 / 2) := by ring
      rw [h, Real.sin_neg]
      ring
    rw [hs lat2 lat1,
      hcs (lat1 * Real.pi / 180) (lat2 * Real.pi / 180) lon2 lon1]

/-- C9: pressing Back in the details view switches to the selection view but
leaves the arrivals interval running (showSelectionView performs no timer
operation and stopArrivalsPolling is never invoked), while the function
stopArrivalsPolling, had it been called, would have cleared it.  The bus
timer keeps running, as the spec says. -/
theorem backToSelection_keeps_arrivals_timer :
    (backButtonClick
      { view := View.details, busTimerRunning := true, arrivalsTimerRunning := true }).view
        = View.selection ∧
    (backButtonClick
      { view := View.details, busTimerRunning := true, arrivalsTimerRunning := true }).arrivalsTimerRunning
        = true ∧
    (backButtonClick
      { view := View.details, busTimerRunning := true, arrivalsTimerRunning := true }).busTimerRunning
        = true ∧
    (stopArrivalsPolling
      { view := View.selection, busTimerRunning := true, arrivalsTimerRunning := true }).arrivalsTimerRunning
        = false :=
  ⟨rfl, rfl, rfl, rfl⟩

/-- C10: for every transport outcome of the proxy chain — a rethrown error
after the chain is exhausted, an empty body, or a parsed container —
getStopArrivals returns a plain list: the failure paths (including a
normalization throw on a malformed arrival record, caught by the catch
block) yield the empty list, the success path yields the normalized
arrivals, and a throw from one proxy merely advances the chain. -/
theorem getStopArrivals_never_throws (chain : List (Except Unit (Option JVal))) (now : ℚ) :
    (getStopArrivals (postRequest chain) now =
      match postRequest chain with
      | .error _ => []
      | .ok none => []
      | .ok (some d) =>
        match arrivalsList d now with
        | .ok l => l
        | .error _ => []) ∧
    (∀ (r : Except Unit (Option JVal)) (rs : List (Except Unit (Option JVal))),
      postRequest (Except.error () :: r :: rs) = postRequest (r :: rs)) := by
  constructor
  · cases hpc : postRequest chain with
    | error e => rfl
    | ok v =>
      cases v with
      | none => rfl
      | some d =>
        show (match getStopArrivalsBody (Except.ok (some d)) now with
          | .ok l => l
          | .error _ => []) = _
        have hb : getStopArrivalsBody (Except.ok (some d)) now = arrivalsList d now := rfl
        rw [hb]
  · intro r rs
    rfl

/-- C2: calculateETAs returns at most ten arrivals, in non-decreasing eta
order. -/
theorem calculateETAs_length_and_sorted (buses : List Bus) (stop : Stop)
    (routes : List Route) (filterRouteIds : Option (List String)) (now : ℤ) :
    (calculateETAs buses stop routes filterRouteIds now).length ≤ 10 ∧
    List.Pairwise (fun a b : Arrival => a.eta ≤ b.eta)
      (calculateETAs buses stop routes filterRouteIds now) := by
  constructor
  · unfold calculateETAs
    rw [List.length_take]
    exact min_le_left _ _
  · unfold calculateETAs
    refine List.Pairwise.sublist (List.take_sublist _ _) ?_
    have h := @List.sorted_mergeSort Arrival etaLe
      (fun a b c hab hbc => by
        simp only [etaLe, decide_eq_true_eq] at hab hbc ⊢
        omega)
      (fun a b => by
        simp only [etaLe, Bool.or_eq_true, decide_eq_true_eq]
        omega)
      ((filterBuses buses filterRouteIds).map (busToArrival stop routes now))
    exact h.imp (fun hab => by simpa [etaLe] using hab)

/-- C4: every arrival reported by calculateETAs carries the speed and
haversine distance of one of the input buses, and its eta is
round(distance / effectiveSpeed * 60) where effectiveSpeed follows the
spec formula; a bus with speed 0 gets effective speed 20. -/
theorem calculateETAs_eta_formula (buses : List Bus) (stop : Stop) (routes : List Route)
    (filterRouteIds : Option (List String)) (now : ℤ) :
    effectiveSpeed 0 = 20 ∧
    ∀ a ∈ calculateETAs buses stop routes filterRouteIds now, ∃ b ∈ buses,
      a.speed = b.speed ∧
      a.distance = getDistanceKm b.latitude b.longitude stop.latitude stop.longitude ∧
      a.eta = jsRound (getDistanceKm b.latitude b.longitude stop.latitude stop.longitude /
        effectiveSpeed b.speed * 60) := by
  constructor
  · unfold effectiveSpeed
    norm_num
  · intro a ha
    rcases mem_calculateETAs ha with ⟨bus, hbus, rfl⟩
    exact ⟨bus, filterBuses_subset buses filterRouteIds hbus, rfl, rfl, rfl⟩

/-- Witness for C4: a stationary bus at the stop itself. -/
theorem calculateETAs_eta_formula_witness :
    busToArrival stopW [] 0 busW ∈ calculateETAs [busW] stopW [] none 0 ∧
    ∃ b ∈ [busW], (busToArrival stopW [] 0 busW).speed = b.speed ∧
      (busToArrival stopW [] 0 busW).distance =
        getDistanceKm b.latitude b.longitude stopW.latitude stopW.longitude ∧
      (busToArrival stopW [] 0 busW).eta =
        jsRound (getDistanceKm b.latitude b.longitude stopW.latitude stopW.longitude /
          effectiveSpeed b.speed * 60) := by
  have hmem : busToArrival stopW [] 0 busW ∈ calculateETAs [busW] stopW [] none 0 := by
    unfold calculateETAs
    rw [show filterBuses [busW] none = [busW] from rfl]
    rw [show [busW].map (busToArrival stopW [] 0) = [busToArrival stopW [] 0 busW] from rfl]
    rw [List.mergeSort_singleton]
    exact List.mem_singleton.mpr rfl
  exact ⟨hmem, (calculateETAs_eta_formula [busW] stopW [] none 0).2 _ hmem⟩

/-- C5 (amended): the refreshArrivals arrival-to-route join compares ids by
string form, but the route Map lookup inside calculateETAs uses strict Map
key equality, finding a route exactly when some route id is identical (same
type and value) to the bus routeId. -/
theorem join_semantics (routes : List Route) (k : JsId) :
    ((routeMapGet routes k).isSome ↔ ∃ r ∈ routes, r.id = k) ∧
    ((findRouteByStringId routes k).isSome ↔
      ∃ r ∈ routes, r.id.toStringJs = k.toStringJs) := by
  constructor
  · unfold routeMapGet
    rw [List.find?_isSome]
    constructor
    · rintro ⟨r, hr, hrk⟩
      exact ⟨r, List.mem_reverse.mp hr, by simpa using hrk⟩
    · rintro ⟨r, hr, hrk⟩
      exact ⟨r, List.mem_reverse.mpr hr, by simpa using hrk⟩
  · unfold findRouteByStringId
    rw [List.find?_isSome]
    simp

/-- Counterexample to C5 as stated: the bus routeId is the number 5 and the
route id is the string form of 5, so the string forms agree, yet the Map
lookup misses and calculateETAs falls back to the synthesized route name
instead of the metadata name CT. -/
theorem join_strict_counterexample :
    (JsId.num 5).toStringJs = (JsId.str "5").toStringJs ∧
    busC5.routeId = JsId.num 5 ∧ routeC5.id = JsId.str "5" ∧
    routeMapGet [routeC5] busC5.routeId = none ∧
    (calculateETAs [busC5] stopW [routeC5] none 0).map Arrival.routeName = ["Route 5"] := by
  refine ⟨rfl, rfl, rfl, rfl, ?_⟩
  unfold calculateETAs
  rw [show filterBuses [busC5] none = [busC5] from rfl]
  rw [show [busC5].map (busToArrival stopW [routeC5] 0) =
    [busToArrival stopW [routeC5] 0 busC5] from rfl]
  rw [List.mergeSort_singleton]
  rfl

/-- C3 (amended): with an empty or absent route filter and at most ten
buses, every input bus yields an output arrival (in general the truncation
to ten can drop buses); with a non-empty filter, only buses whose routeId,
compared as a string, is a member of the filter appear. -/
theorem calculateETAs_filter_semantics (buses : List Bus) (stop : Stop)
    (routes : List Route) (filterRouteIds : Option (List String)) (now : ℤ) :
    ((filterRouteIds = none ∨ filterRouteIds = some []) → buses.length ≤ 10 →
      ∀ b ∈ buses, ∃ a ∈ calculateETAs buses stop routes filterRouteIds now,
        a.busId = b.id) ∧
    (∀ ids, filterRouteIds = some ids → ids ≠ [] →
      ∀ a ∈ calculateETAs buses stop routes filterRouteIds now,
        ids.contains a.routeId.toStringJs = true) := by
  constructor
  · intro hf hlen b hb
    have hfil : filterBuses buses filterRouteIds = buses := by
      rcases hf with h | h <;> subst h <;> rfl
    refine ⟨busToArrival stop routes now b, ?_, rfl⟩
    unfold calculateETAs
    rw [hfil]
    have hlen2 : ((buses.map (busToArrival stop routes now)).mergeSort etaLe).length ≤ 10 := by
      rw [List.length_mergeSort, List.length_map]
      exact hlen
    rw [List.take_of_length_le hlen2]
    exact List.mem_mergeSort.mpr (List.mem_map.mpr ⟨b, hb, rfl⟩)
  · intro ids hids hne a ha
    subst hids
    rcases mem_calculateETAs ha with ⟨bus, hbus, rfl⟩
    have hpos : 0 < ids.length := List.length_pos.mpr hne
    simp only [filterBuses, if_pos hpos] at hbus
    exact (List.mem_filter.mp hbus).2

/-- Counterexample to C3 as stated: with eleven buses with distinct ids and
no filter, the output is truncated to ten arrivals, so not every input bus
yields an arrival. -/
theorem truncation_counterexample :
    ¬ ∀ b ∈ buses11, ∃ a ∈ calculateETAs buses11 stopW [] none 0, a.busId = b.id := by
  intro h
  have hsub : buses11.map Bus.id ⊆ (calculateETAs buses11 stopW [] none 0).map Arrival.busId := by
    intro x hx
    rcases List.mem_map.mp hx with ⟨b, hb, rfl⟩
    rcases h b hb with ⟨a, ha, hab⟩
    exact List.mem_map.mpr ⟨a, ha, hab⟩
  have hnd : (buses11.map Bus.id).Nodup := by decide
  have hlen1 : (buses11.map Bus.id).length = 11 := by
    rw [List.length_map]
    rfl
  have hlen2 : ((calculateETAs buses11 stopW [] none 0).map Arrival.busId).length = 10 := by
    rw [List.length_map]
    unfold calculateETAs
    rw [List.length_take, List.length_mergeSort, List.length_map]
    rfl
  have hle := (List.subperm_of_subset hnd hsub).length_le
  omega

/-- Witness for C3 (amended) at concrete snapshots: one bus with no filter,
and one bus against the filter set containing the string 5. -/
theorem calculateETAs_filter_semantics_witness :
    (∀ b ∈ [busW], ∃ a ∈ calculateETAs [busW] stopW [] none 0, a.busId = b.id) ∧
    (∀ a ∈ calculateETAs [busF] stopW [] (some ["5"]) 0,
      (["5"] : List String).contains a.routeId.toStringJs = true) :=
  ⟨(calculateETAs_filter_semantics [busW] stopW [] none 0).1 (Or.inl rfl) (by decide),
   (calculateETAs_filter_semantics [busF] stopW [] (some ["5"]) 0).2 ["5"] rfl
     (by decide)⟩

/-- The flattening loop applied to a list of array values concatenates them
in order. -/
theorem flatten_foldl_arrs (gs : List (List JVal)) (acc : List JVal) :
    (gs.map JVal.arr).foldl flattenStep acc = acc ++ gs.flatten := by
  induction gs generalizing acc with
  | nil => simp
  | cons g t ih =>
    simp only [List.map_cons, List.foldl_cons, flattenStep, List.flatten_cons]
    rw [ih, List.append_assoc]

/-- C6: a buses payload shaped as a keyed-map of arrays normalizes to the
same entity sequence as the flat array holding the same records in the same
order (keys of a JavaScript object are distinct). -/
theorem getBuses_keyedMap_eq_flat (now : ℚ) (groups : List (String × List JVal))
    (hkeys : (groups.map Prod.fst).Nodup) :
    getBuses (some (JVal.obj [("buses",
        JVal.obj (groups.map (fun g => (g.1, JVal.arr g.2))))])) now =
    getBuses (some (JVal.obj [("buses", JVal.arr (groups.flatMap Prod.snd))])) now := by
  have hL : getBuses (some (JVal.obj [("buses",
        JVal.obj (groups.map (fun g => (g.1, JVal.arr g.2))))])) now
      = (flattenForIn (JVal.obj (groups.map (fun g => (g.1, JVal.arr g.2))))).mapM
          (normalizeBus now) := rfl
  have hR : getBuses (some (JVal.obj [("buses", JVal.arr (groups.flatMap Prod.snd))])) now
      = (groups.flatMap Prod.snd).mapM (normalizeBus now) := rfl
  rw [hL, hR]
  congr 1
  unfold flattenForIn
  simp only [jsForInValues]
  have hmm : (groups.map (fun g => (g.1, JVal.arr g.2))).map Prod.snd
      = (groups.map Prod.snd).map JVal.arr := by
    simp [List.map_map, Function.comp]
  rw [hmm, flatten_foldl_arrs]
  simp [List.flatMap_def]

/-- Witness for C6 at a concrete two-key payload. -/
theorem getBuses_keyedMap_eq_flat_witness :
    ((([("a", [JVal.num 1]), ("b", [JVal.num 2, JVal.num 3])] :
        List (String × List JVal)).map Prod.fst).Nodup) ∧
    getBuses (some (JVal.obj [("buses", JVal.obj
        ([("a", [JVal.num 1]), ("b", [JVal.num 2, JVal.num 3])].map
          (fun g => (g.1, JVal.arr g.2))))])) 0 =
    getBuses (some (JVal.obj [("buses", JVal.arr
        ([("a", [JVal.num 1]), ("b", [JVal.num 2, JVal.num 3])].flatMap Prod.snd))])) 0 :=
  ⟨by decide,
   getBuses_keyedMap_eq_flat 0 [("a", [JVal.num 1]), ("b", [JVal.num 2, JVal.num 3])]
     (by decide)⟩

/-- A mapM over JVal records throws as soon as the list holds a null record,
when the per-record normalizer throws on null. -/
theorem mapM_except_error {α : Type} (f : JVal → Except Unit α)
    (hf : f JVal.null = Except.error ()) (xs : List JVal) (h : JVal.null ∈ xs) :
    xs.mapM f = Except.error () := by
  induction xs with
  | nil => cases h
  | cons x t ih =>
    rw [List.mapM_cons]
    rcases List.mem_cons.mp h with hx | ht2
    · rw [← hx, hf]
      rfl
    · cases hfx : f x with
      | error e =>
        cases e
        rfl
      | ok y =>
        rw [ih ht2]
        rfl

/-- C7 (amended): an absent response body, a falsy body, an absent container
key, or a falsy container value yields the empty sequence from each
normalizer without exception, and a truthy stops or buses container with no
enumerable own properties also yields the empty sequence; but the
no-exception half fails for truthy malformed containers: getRoutes
propagates a TypeError whenever `all` is truthy and not an array, and
getStops and getBuses propagate a TypeError when the container holds a null
record. -/
theorem normalizers_container_fallbacks :
    (getRoutes none = Except.ok [] ∧ getStops none = Except.ok [] ∧
      ∀ now, getBuses none now = Except.ok []) ∧
    (∀ d, jsTruthy d = false →
      getRoutes (some d) = Except.ok [] ∧ getStops (some d) = Except.ok [] ∧
      ∀ now, getBuses (some d) now = Except.ok []) ∧
    (∀ d, jsTruthy d = true → jsGet d "all" = Except.ok none →
      getRoutes (some d) = Except.ok []) ∧
    (∀ d, jsTruthy d = true → jsGet d "stops" = Except.ok none →
      getStops (some d) = Except.ok []) ∧
    (∀ d now, jsTruthy d = true → jsGet d "buses" = Except.ok none →
      getBuses (some d) now = Except.ok []) ∧
    (∀ d v, jsTruthy d = true → jsGet d "all" = Except.ok (some v) → jsTruthy v = false →
      getRoutes (some d) = Except.ok []) ∧
    (∀ d v, jsTruthy d = true → jsGet d "stops" = Except.ok (some v) → jsTruthy v = false →
      getStops (some d) = Except.ok []) ∧
    (∀ d v now, jsTruthy d = true → jsGet d "buses" = Except.ok (some v) → jsTruthy v = false →
      getBuses (some d) now = Except.ok []) ∧
    (∀ v, jsTruthy v = true → (∀ xs, v ≠ JVal.arr xs) →
      getRoutes (some (JVal.obj [("all", v)])) = Except.error ()) ∧
    (∀ v, jsTruthy v = true → JVal.null ∈ jsForInValues v →
      getStops (some (JVal.obj [("stops", v)])) = Except.error ()) ∧
    (∀ (xs : List JVal) now, JVal.null ∈ xs →
      getBuses (some (JVal.obj [("buses", JVal.arr xs)])) now = Except.error ()) ∧
    (∀ v, jsTruthy v = true → jsForInValues v = [] →
      getStops (some (JVal.obj [("stops", v)])) = Except.ok []) ∧
    (∀ v now, jsTruthy v = true → jsForInValues v = [] →
      getBuses (some (JVal.obj [("buses", v)])) now = Except.ok []) := by
  refine ⟨⟨rfl, rfl, fun now => rfl⟩, ?_, ?_, ?_, ?_, ?_, ?_, ?_, ?_, ?_, ?_, ?_, ?_⟩
  · intro d hd
    refine ⟨?_, ?_, fun now => ?_⟩ <;>
      simp only [getRoutes, getStops, getBuses, hd, if_pos]
  · intro d ht hall
    simp only [getRoutes, hall, ht]
    rfl
  · intro d ht hstops
    simp only [getStops, hstops, ht]
    rfl
  · intro d now ht hbuses
    simp only [getBuses, hbuses, ht]
    rfl
  · intro d v ht hget hv
    have hbind : getRoutes (some d) =
        (match jsOr (some v) (JVal.arr []) with
         | JVal.arr xs => xs.mapM normalizeRoute
         | _ => Except.error ()) := by
      simp only [getRoutes, ht, hget]
      rfl
    have h2 : jsOr (some v) (JVal.arr []) = JVal.arr [] := by
      show (if jsTruthy v = true then v else JVal.arr []) = JVal.arr []
      rw [hv]
      rfl
    rw [hbind, h2]
    rfl
  · intro d v ht hget hv
    have hbind : getStops (some d) =
        (if jsTruthy v = false then Except.ok []
         else (jsForInValues v).mapM normalizeStop) := by
      simp only [getStops, ht, hget]
      rfl
    rw [hbind, hv]
    rfl
  · intro d v now ht hget hv
    have hbind : getBuses (some d) now =
        (if jsTruthy v = false then Except.ok []
         else (match v with
               | JVal.arr xs => xs
               | _ => flattenForIn v).mapM (normalizeBus now)) := by
      simp only [getBuses, ht, hget]
      rfl
    rw [hbind, hv]
    rfl
  · intro v hv hnotarr
    have h2 : jsOr (some v) (JVal.arr []) = v := by
      show (if jsTruthy v = true then v else JVal.arr []) = v
      rw [if_pos hv]
    cases v with
    | arr xs => exact absurd rfl (hnotarr xs)
    | null => exact absurd hv (by decide)
    | bool b =>
      cases b with
      | false => exact absurd hv (by decide)
      | true => rfl
    | num q =>
      show (match jsOr (some (JVal.num q)) (JVal.arr []) with
        | JVal.arr xs => xs.mapM normalizeRoute
        | _ => Except.error ()) = Except.error ()
      rw [h2]
    | str s =>
      show (match jsOr (some (JVal.str s)) (JVal.arr []) with
        | JVal.arr xs => xs.mapM normalizeRoute
        | _ => Except.error ()) = Except.error ()
      rw [h2]
    | obj props => rfl
  · intro v hv hmem
    show (if jsTruthy v = false then Except.ok []
      else (jsForInValues v).mapM normalizeStop) = Except.error ()
    rw [hv]
    exact mapM_except_error normalizeStop rfl (jsForInValues v) hmem
  · intro xs now hmem
    show xs.mapM (normalizeBus now) = Except.error ()
    exact mapM_except_error (normalizeBus now) rfl xs hmem
  · intro v hv hvals
    show (if jsTruthy v = false then Except.ok []
      else (jsForInValues v).mapM normalizeStop) = Except.ok []
    rw [hv, hvals]
    rfl
  · intro v now hv hvals
    cases v with
    | null => exact absurd hv (by decide)
    | bool b =>
      cases b with
      | false => exact absurd hv (by decide)
      | true => rfl
    | arr xs =>
      have hx : xs = [] := hvals
      subst hx
      rfl
    | num q =>
      show (if jsTruthy (JVal.num q) = false then Except.ok []
        else (flattenForIn (JVal.num q)).mapM (normalizeBus now)) = Except.ok []
      rw [hv]
      rfl
    | str s =>
      show (if jsTruthy (JVal.str s) = false then Except.ok []
        else (flattenForIn (JVal.str s)).mapM (normalizeBus now)) = Except.ok []
      rw [hv,
        show flattenForIn (JVal.str s) =
          (jsForInValues (JVal.str s)).foldl flattenStep [] from rfl,
        hvals]
      rfl
    | obj props =>
      show (flattenForIn (JVal.obj props)).mapM (normalizeBus now) = Except.ok []
      rw [show flattenForIn (JVal.obj props) =
          (jsForInValues (JVal.obj props)).foldl flattenStep [] from rfl,
        hvals]
      rfl

/-- Counterexample to C7 as stated: a routes payload whose `all` container
is the truthy number 1 makes getRoutes throw a TypeError, and a stops or
buses container holding a null record makes getStops and getBuses throw at
the first field access; a string container makes getStops yield one garbage
record per character, not an empty result. -/
theorem malformed_container_counterexample :
    getRoutes (some (JVal.obj [("all", JVal.num 1)])) = Except.error () ∧
    getStops (some (JVal.obj [("stops", JVal.arr [JVal.null])])) = Except.error () ∧
    getBuses (some (JVal.obj [("buses", JVal.arr [JVal.null])])) 0 = Except.error () ∧
    Except.map List.length (getStops (some (JVal.obj [("stops", JVal.str "ab")]))) =
      Except.ok 2 :=
  ⟨rfl, rfl, rfl, rfl⟩

/-- Witness for C7 (amended): a falsy body gives an empty result, a truthy
non-array `all` container gives the propagated routes error, and null
records inside stops and buses containers give the propagated TypeError. -/
theorem normalizers_container_fallbacks_witness :
    (jsTruthy (JVal.bool false) = false ∧
      getRoutes (some (JVal.bool false)) = Except.ok []) ∧
    (jsTruthy (JVal.bool true) = true ∧
      getRoutes (some (JVal.obj [("all", JVal.bool true)])) = Except.error ()) ∧
    (JVal.null ∈ jsForInValues (JVal.obj [("k", JVal.null)]) ∧
      getStops (some (JVal.obj [("stops", JVal.obj [("k", JVal.null)])])) =
        Except.error ()) ∧
    (JVal.null ∈ [JVal.num 7, JVal.null] ∧
      getBuses (some (JVal.obj [("buses", JVal.arr [JVal.num 7, JVal.null])])) 0 =
        Except.error ()) := by
  obtain ⟨h1, h2, h3, h4, h5, h6, h7, h8, h9, h10, h11, h12, h13⟩ :=
    normalizers_container_fallbacks
  refine ⟨⟨rfl, (h2 (JVal.bool false) rfl).1⟩,
    ⟨rfl, h9 (JVal.bool true) rfl (fun _ h => JVal.noConfusion h)⟩,
    ⟨?_, h10 (JVal.obj [("k", JVal.null)]) rfl (by simp [jsForInValues])⟩,
    ⟨?_, h11 [JVal.num 7, JVal.null] 0 (by simp)⟩⟩
  · simp [jsForInValues]
  · simp

end Tracker

